import Mathlib

/-!
Verification of the benchmark driver `src/Python/run.py` of the
mscs-thesis-project repository.

The Python function `run(init, code, name, argv)` is embedded shallowly:

* the corpus loaders `read_sequences`, `read_patterns`, `read_answers`
  (defined in the external `setup` module, not part of this source tree)
  are abstracted as function parameters from a source name to data;
* the matcher capabilities `init` and `code` are abstracted parameters,
  exactly as in the Python source where they are arguments of `run`;
* the wall clock (`perf_counter`) is abstracted: the elapsed duration is a
  parameter, modelled as a nonnegative whole number of microseconds, and the
  `:.6f` formatting of the elapsed seconds is modelled digit by digit;
* raised exceptions become an `Except` error value, `stderr` output becomes
  a list of diagnostic lines, `stdout` output a list of report lines;
* the calls made to the matcher are recorded as an event trace so that
  call-count and call-order properties can be stated.
-/

namespace RunPy

/-- The disjoint failure modes of `run`: the usage exception raised for a bad
argument count (carrying its message, built from `argv[0]`), the
pattern/answer count-mismatch exception, and an uncaught `IndexError`
from indexing past the end of a list. -/
inductive RunError where
  | usageError (msg : String)
  | countMismatchError
  | indexError
deriving DecidableEq, Repr

/-- One observable interaction with the matcher: `initCall p` records the
call `init(patterns_data[p])`, and `matchCall p s` records the call
`code(pat_data, sequences_data[s])` made while processing pattern `p`. -/
inductive Event where
  | initCall (pattern : Nat)
  | matchCall (pattern : Nat) (sequence : Nat)
deriving DecidableEq, Repr

/-- Everything a successful run produces: the trace of matcher calls, the
diagnostic lines written to `stderr`, the report lines written to `stdout`,
and the integer value returned to the caller. -/
structure RunOutput where
  events : List Event
  stderrLines : List String
  stdoutLines : List String
  returnCode : Nat
deriving DecidableEq, Repr

/-- The Encoder: `list(map(ord, s))`, mapping each character of a string to
its integer code point. -/
def encode (s : String) : List Nat :=
  s.data.map Char.toNat

/-- The diagnostic line printed to `stderr` for a mismatching pair, with the
space-joined layout produced by the three-argument `print` call in the
source: `Pattern {p+1} mismatch against sequence {s+1} ({matches} != {expected})`. -/
def mismatchMessage (pattern sequence : Nat) (actual expected : Int) : String :=
  "Pattern " ++ toString (pattern + 1) ++ " mismatch against sequence " ++
    toString (sequence + 1) ++ " (" ++ toString actual ++ " != " ++
    toString expected ++ ")"

/-- The Python expression `answers_data[pattern][sequence]`: `none` models the
`IndexError` raised when either index is out of range. -/
def cellLookup (ans : List (List Int)) (p s : Nat) : Option Int :=
  (ans[p]?).bind fun row => row[s]?

/-- The inner `for sequence in range(len(sequences_data))` loop of `run`,
processing the index list `idxs` (instantiated with
`List.range sequences.length`) for one preprocessed pattern.  Returns the
matcher-call trace, the diagnostic lines and the mismatch tally contributed by
this pattern, or the error that aborts the run. -/
def seqLoop {α : Type} (code : α → List Nat → Int) (patData : α)
    (pattern : Nat) (sequences : List (List Nat))
    (ans : Option (List (List Int))) (idxs : List Nat) :
    Except RunError (List Event × List String × Nat) :=
  match idxs with
  | [] => .ok ([], [], 0)
  | s :: rest =>
    let seq := sequences.getD s []
    let actual := code patData seq
    let step : Except RunError (List String × Nat) :=
      match ans with
      | none => .ok ([], 0)
      | some ansMat =>
        match cellLookup ansMat pattern s with
        | none => .error .indexError
        | some expected =>
          if actual ≠ expected then
            .ok ([mismatchMessage pattern s actual expected], 1)
          else
            .ok ([], 0)
    match step with
    | .error e => .error e
    | .ok (diags₁, cnt₁) =>
      match seqLoop code patData pattern sequences ans rest with
      | .error e => .error e
      | .ok (evs, diags, cnt) =>
        .ok (Event.matchCall pattern s :: evs, diags₁ ++ diags, cnt₁ + cnt)

/-- The outer `for pattern in range(len(patterns_data))` loop of `run`,
processing the index list `idxs` (instantiated with
`List.range patterns.length`): preprocess the pattern with `init`, then run
the inner loop over all sequences. -/
def patLoop {α : Type} (init : List Nat → α) (code : α → List Nat → Int)
    (patterns sequences : List (List Nat))
    (ans : Option (List (List Int))) (idxs : List Nat) :
    Except RunError (List Event × List String × Nat) :=
  match idxs with
  | [] => .ok ([], [], 0)
  | p :: rest =>
    let pat := patterns.getD p []
    let patData := init pat
    match seqLoop code patData p sequences ans (List.range sequences.length) with
    | .error e => .error e
    | .ok (evs₁, diags₁, cnt₁) =>
      match patLoop init code patterns sequences ans rest with
      | .error e => .error e
      | .ok (evs, diags, cnt) =>
        .ok (Event.initCall p :: (evs₁ ++ evs), diags₁ ++ diags, cnt₁ + cnt)

/-- The message of the usage exception:
`f"Usage: {argv[0]} sequences patterns <answers>"`. -/
def usageMessage (argv : List String) : String :=
  "Usage: " ++ argv.getD 0 "" ++ " sequences patterns <answers>"

/-- Everything `run` does up to the end of the double loop: argument-count
validation, loading (via the abstracted loaders), the answers row-count
check, encoding, and the nested matching loop.  The elapsed-time report is
assembled separately in `run`, since it is the only part that depends on the
clock. -/
def runChecked {α : Type} (init : List Nat → α) (code : α → List Nat → Int)
    (argv : List String)
    (readSequences readPatterns : String → List String)
    (readAnswers : String → List (List Int)) :
    Except RunError (List Event × List String × Nat) :=
  if argv.length < 3 ∨ argv.length > 4 then
    .error (.usageError (usageMessage argv))
  else
    let sequencesData := readSequences (argv.getD 1 "")
    let patternsData := readPatterns (argv.getD 2 "")
    let ansStep : Except RunError (Option (List (List Int))) :=
      if argv.length = 4 then
        let answersData := readAnswers (argv.getD 3 "")
        if answersData.length ≠ patternsData.length then
          .error .countMismatchError
        else
          .ok (some answersData)
      else
        .ok none
    match ansStep with
    | .error e => .error e
    | .ok ans =>
      let patterns := patternsData.map encode
      let sequences := sequencesData.map encode
      patLoop init code patterns sequences ans (List.range patterns.length)

/-- The six digits after the decimal point of the `{elapsed:.6f}` report
field, for an elapsed time whose fractional part is `n` microseconds
(`n < 1000000`). -/
def sixFracDigits (n : Nat) : String :=
  String.mk [Nat.digitChar (n / 100000 % 10), Nat.digitChar (n / 10000 % 10),
    Nat.digitChar (n / 1000 % 10), Nat.digitChar (n / 100 % 10),
    Nat.digitChar (n / 10 % 10), Nat.digitChar (n % 10)]

/-- The `{elapsed:.6f}` field: whole seconds, a decimal point, then exactly
six fractional digits, for an elapsed time of `elapsedMicros` microseconds. -/
def formatRuntime (elapsedMicros : Nat) : String :=
  toString (elapsedMicros / 1000000) ++ "." ++ sixFracDigits (elapsedMicros % 1000000)

/-- The three report lines written to `stdout` by the single `print` call
`print(f"language: python\nalgorithm: {name}\nruntime: {elapsed:.6f}")`. -/
def report (name : String) (elapsedMicros : Nat) : List String :=
  ["language: python", "algorithm: " ++ name, "runtime: " ++ formatRuntime elapsedMicros]

/-- The embedding of `run(init, code, name, argv)`.  The loaders and the
measured elapsed time (in microseconds) are abstracted as parameters; a
normal return becomes `.ok` with the full observable output, a raised
exception becomes `.error`. -/
def run {α : Type} (init : List Nat → α) (code : α → List Nat → Int)
    (name : String) (argv : List String)
    (readSequences readPatterns : String → List String)
    (readAnswers : String → List (List Int)) (elapsedMicros : Nat) :
    Except RunError RunOutput :=
  match runChecked init code argv readSequences readPatterns readAnswers with
  | .error e => .error e
  | .ok (evs, diags, cnt) =>
    .ok { events := evs, stderrLines := diags,
          stdoutLines := report name elapsedMicros, returnCode := cnt }

/-! ### Specification-side definitions

The following definitions restate, in the spec's vocabulary, the quantities
the claims talk about; the theorems below relate them to the embedding. -/

/-- `MatchCount(p, s)` in the spec's sense: the matcher's count for pattern
index `p` against sequence index `s`. -/
def matchCountOf {α : Type} (init : List Nat → α) (code : α → List Nat → Int)
    (patterns sequences : List (List Nat)) (p s : Nat) : Int :=
  code (init (patterns.getD p [])) (sequences.getD s [])

/-- `AnswerMatrix[p][s]`, totalised with defaults; the claims only use it at
indices where the matrix has a cell. -/
def answerCell (ans : List (List Int)) (p s : Nat) : Int :=
  (ans.getD p []).getD s 0

/-- The cardinality of the set `{(p,s) : MatchCount(p,s) ≠ AnswerMatrix[p][s]}`
over the full pattern × sequence grid. -/
def mismatchTotal {α : Type} (init : List Nat → α) (code : α → List Nat → Int)
    (patterns sequences : List (List Nat)) (ans : List (List Int)) : Nat :=
  ((List.range patterns.length).map fun p =>
    ((List.range sequences.length).filter fun s =>
      decide (matchCountOf init code patterns sequences p s ≠ answerCell ans p s)).length).sum

/-- The diagnostic lines the spec prescribes: exactly one line per
mismatching pair, in pattern-major, sequence-minor order. -/
def mismatchDiagLines {α : Type} (init : List Nat → α) (code : α → List Nat → Int)
    (patterns sequences : List (List Nat)) (ans : List (List Int)) : List String :=
  (List.range patterns.length).flatMap fun p =>
    (List.range sequences.length).flatMap fun s =>
      if matchCountOf init code patterns sequences p s ≠ answerCell ans p s then
        [mismatchMessage p s (matchCountOf init code patterns sequences p s)
          (answerCell ans p s)]
      else []

/-- The matcher-call trace the spec prescribes for `P` patterns and `S`
sequences: for each pattern in ascending order, one `Init` call followed by
one `MatchCount` call per sequence in ascending order. -/
def specEvents (P S : Nat) : List Event :=
  (List.range P).flatMap fun p =>
    Event.initCall p :: (List.range S).map fun s => Event.matchCall p s

/-! ### A concrete matcher and corpus, used to instantiate the theorems -/

/-- A concrete matcher preprocessing step: the identity, as a stand-in for
an algorithm-defined preprocessed pattern. -/
def demoInit (pat : List Nat) : List Nat := pat

/-- A concrete match counter: the number of positions of the sequence whose
code equals the first code of the pattern. -/
def demoCode (patData seq : List Nat) : Int :=
  ((seq.filter (· = patData.getD 0 0)).length : Int)

/-- A concrete sequences loader. -/
def demoSeqs : String → List String := fun _ => ["abc", "bb"]

/-- A concrete patterns loader. -/
def demoPats : String → List String := fun _ => ["a", "b"]

/-- A concrete answers loader agreeing with `demoCode` everywhere. -/
def demoAns : String → List (List Int) := fun _ => [[1, 0], [1, 2]]

/-- A concrete answers loader disagreeing with `demoCode` at one cell. -/
def demoAnsWrong : String → List (List Int) := fun _ => [[1, 9], [1, 2]]

/-- A concrete answers loader whose first row is shorter than the sequence
count. -/
def demoAnsShort : String → List (List Int) := fun _ => [[1], [1, 2]]

/-- A concrete answers loader with too few rows. -/
def demoAnsRows : String → List (List Int) := fun _ => [[1, 0]]

/-! ### Characterisation of the inner loop -/

lemma answerCell_of_cellLookup {ans : List (List Int)} {p s : Nat} {v : Int}
    (h : cellLookup ans p s = some v) : answerCell ans p s = v := by
  unfold cellLookup at h
  cases hrow : ans[p]? with
  | none => rw [hrow] at h; simp at h
  | some row =>
    rw [hrow] at h
    simp only [Option.some_bind] at h
    simp [answerCell, List.getD_eq_getElem?_getD, hrow, h]

lemma cellLookup_isSome_of_some {ans : List (List Int)} {p s : Nat} {v : Int}
    (h : cellLookup ans p s = some v) : (cellLookup ans p s).isSome := by
  rw [h]; rfl

/-- With no answer grid, the inner loop always succeeds, produces no
diagnostics, tallies nothing, and records one matcher call per index. -/
lemma seqLoop_none_eq {α : Type} (code : α → List Nat → Int) (patData : α)
    (pattern : Nat) (sequences : List (List Nat)) (idxs : List Nat) :
    seqLoop code patData pattern sequences none idxs =
      .ok (idxs.map (Event.matchCall pattern), [], 0) := by
  induction idxs with
  | nil => rfl
  | cons s rest ih => simp [seqLoop, ih]

/-- With an answer grid whose cells are all present at the processed indices,
the inner loop succeeds and its three outputs are the matcher-call trace, the
per-mismatch diagnostic lines, and the number of mismatching indices. -/
lemma seqLoop_some_eq {α : Type} (code : α → List Nat → Int) (patData : α)
    (pattern : Nat) (sequences : List (List Nat)) (ansMat : List (List Int))
    (idxs : List Nat)
    (h : ∀ s ∈ idxs, (cellLookup ansMat pattern s).isSome) :
    seqLoop code patData pattern sequences (some ansMat) idxs =
      .ok (idxs.map (Event.matchCall pattern),
        idxs.flatMap (fun s =>
          if code patData (sequences.getD s []) ≠ answerCell ansMat pattern s then
            [mismatchMessage pattern s (code patData (sequences.getD s []))
              (answerCell ansMat pattern s)]
          else []),
        (idxs.filter fun s =>
          decide (code patData (sequences.getD s []) ≠ answerCell ansMat pattern s)).length) := by
  induction idxs with
  | nil => rfl
  | cons s rest ih =>
    have hs : (cellLookup ansMat pattern s).isSome := h s (List.mem_cons_self s rest)
    obtain ⟨v, hv⟩ := Option.isSome_iff_exists.mp hs
    have hcell : answerCell ansMat pattern s = v := answerCell_of_cellLookup hv
    have hrest : ∀ t ∈ rest, (cellLookup ansMat pattern t).isSome :=
      fun t ht => h t (List.mem_cons_of_mem s ht)
    simp only [seqLoop, hv, ih hrest, List.map_cons, List.flatMap_cons, List.filter_cons,
      hcell]
    by_cases hne : code patData (sequences[s]?.getD []) = v
    · simp [hne]
    · simp [hne, Nat.add_comm]

/-- The only exception the inner loop can raise is an `IndexError` from the
answer-grid lookup. -/
lemma seqLoop_error_eq {α : Type} {code : α → List Nat → Int} {patData : α}
    {pattern : Nat} {sequences : List (List Nat)} {ans : Option (List (List Int))}
    {idxs : List Nat} {e : RunError}
    (h : seqLoop code patData pattern sequences ans idxs = .error e) :
    e = RunError.indexError := by
  induction idxs generalizing e with
  | nil => simp [seqLoop] at h
  | cons s rest ih =>
    cases ans with
    | none =>
      rw [seqLoop_none_eq] at h
      cases h
    | some ansMat =>
      simp only [seqLoop] at h
      cases hcell : cellLookup ansMat pattern s with
      | none =>
        simp only [hcell] at h
        exact (Except.error.inj h).symm
      | some v =>
        simp only [hcell] at h
        cases hrec : seqLoop code patData pattern sequences (some ansMat) rest with
        | error e2 =>
          rw [hrec] at h
          by_cases hne : code patData (sequences.getD s []) ≠ v
          · rw [if_pos hne] at h
            exact (Except.error.inj h) ▸ ih hrec
          · rw [if_neg hne] at h
            exact (Except.error.inj h) ▸ ih hrec
        | ok triple =>
          rw [hrec] at h
          by_cases hne : code patData (sequences.getD s []) ≠ v
          · rw [if_pos hne] at h
            cases h
          · rw [if_neg hne] at h
            cases h

/-- If the inner loop returns normally, every answer-grid cell it consulted
was present. -/
lemma seqLoop_ok_cells {α : Type} {code : α → List Nat → Int} {patData : α}
    {pattern : Nat} {sequences : List (List Nat)} {ansMat : List (List Int)}
    {idxs : List Nat} {out : List Event × List String × Nat}
    (h : seqLoop code patData pattern sequences (some ansMat) idxs = .ok out) :
    ∀ s ∈ idxs, (cellLookup ansMat pattern s).isSome := by
  induction idxs generalizing out with
  | nil => simp
  | cons s rest ih =>
    intro t ht
    simp only [seqLoop] at h
    cases hcell : cellLookup ansMat pattern s with
    | none =>
      simp only [hcell] at h
      cases h
    | some v =>
      rcases List.mem_cons.mp ht with rfl | htr
      · rw [hcell]; rfl
      · simp only [hcell] at h
        cases hrec : seqLoop code patData pattern sequences (some ansMat) rest with
        | error e2 =>
          rw [hrec] at h
          by_cases hne : code patData (sequences.getD s []) ≠ v
          · rw [if_pos hne] at h; cases h
          · rw [if_neg hne] at h; cases h
        | ok triple => exact ih hrec t htr

/-- With no answer grid, the outer loop always succeeds: the trace is one
`Init` call per pattern, each followed by the full ascending block of
`MatchCount` calls, with no diagnostics and a zero tally. -/
lemma patLoop_none_eq {α : Type} (init : List Nat → α) (code : α → List Nat → Int)
    (patterns sequences : List (List Nat)) (idxs : List Nat) :
    patLoop init code patterns sequences none idxs =
      .ok (idxs.flatMap (fun p =>
        Event.initCall p :: (List.range sequences.length).map fun s => Event.matchCall p s),
        [], 0) := by
  induction idxs with
  | nil => rfl
  | cons p rest ih => simp [patLoop, seqLoop_none_eq, ih]

/-- With an answer grid whose cells are all present on the processed grid,
the outer loop succeeds, and its outputs are the spec's call trace, the
spec's diagnostic lines, and the total number of mismatching pairs. -/
lemma patLoop_some_eq {α : Type} (init : List Nat → α) (code : α → List Nat → Int)
    (patterns sequences : List (List Nat)) (ansMat : List (List Int))
    (idxs : List Nat)
    (h : ∀ p ∈ idxs, ∀ s ∈ List.range sequences.length, (cellLookup ansMat p s).isSome) :
    patLoop init code patterns sequences (some ansMat) idxs =
      .ok (idxs.flatMap (fun p =>
        Event.initCall p :: (List.range sequences.length).map fun s => Event.matchCall p s),
        idxs.flatMap (fun p => (List.range sequences.length).flatMap fun s =>
          if matchCountOf init code patterns sequences p s ≠ answerCell ansMat p s then
            [mismatchMessage p s (matchCountOf init code patterns sequences p s)
              (answerCell ansMat p s)]
          else []),
        (idxs.map fun p => ((List.range sequences.length).filter fun s =>
          decide (matchCountOf init code patterns sequences p s ≠ answerCell ansMat p s)).length).sum) := by
  induction idxs with
  | nil => rfl
  | cons p rest ih =>
    have hp : ∀ s ∈ List.range sequences.length, (cellLookup ansMat p s).isSome :=
      h p (List.mem_cons_self p rest)
    have hrest : ∀ q ∈ rest, ∀ s ∈ List.range sequences.length, (cellLookup ansMat q s).isSome :=
      fun q hq => h q (List.mem_cons_of_mem p hq)
    simp only [patLoop,
      seqLoop_some_eq code (init (patterns.getD p [])) p sequences ansMat
        (List.range sequences.length) hp,
      ih hrest, List.flatMap_cons, List.map_cons, List.sum_cons]
    rfl

/-- The only exception the outer loop can raise is an `IndexError`. -/
lemma patLoop_error_eq {α : Type} {init : List Nat → α} {code : α → List Nat → Int}
    {patterns sequences : List (List Nat)} {ans : Option (List (List Int))}
    {idxs : List Nat} {e : RunError}
    (h : patLoop init code patterns sequences ans idxs = .error e) :
    e = RunError.indexError := by
  induction idxs generalizing e with
  | nil => simp [patLoop] at h
  | cons p rest ih =>
    simp only [patLoop] at h
    cases hseq : seqLoop code (init (patterns.getD p [])) p sequences ans
        (List.range sequences.length) with
    | error e1 =>
      rw [hseq] at h
      exact (Except.error.inj h) ▸ seqLoop_error_eq hseq
    | ok triple =>
      rw [hseq] at h
      cases hrec : patLoop init code patterns sequences ans rest with
      | error e2 =>
        rw [hrec] at h
        exact (Except.error.inj h) ▸ ih hrec
      | ok triple2 =>
        rw [hrec] at h
        cases h

/-- If the outer loop returns normally with an answer grid, every cell of
the processed pattern × sequence grid was present. -/
lemma patLoop_ok_cells {α : Type} {init : List Nat → α} {code : α → List Nat → Int}
    {patterns sequences : List (List Nat)} {ansMat : List (List Int)}
    {idxs : List Nat} {out : List Event × List String × Nat}
    (h : patLoop init code patterns sequences (some ansMat) idxs = .ok out) :
    ∀ p ∈ idxs, ∀ s ∈ List.range sequences.length, (cellLookup ansMat p s).isSome := by
  induction idxs generalizing out with
  | nil => simp
  | cons p rest ih =>
    intro q hq
    simp only [patLoop] at h
    cases hseq : seqLoop code (init (patterns.getD p [])) p sequences (some ansMat)
        (List.range sequences.length) with
    | error e1 =>
      rw [hseq] at h
      cases h
    | ok triple =>
      rw [hseq] at h
      cases hrec : patLoop init code patterns sequences (some ansMat) rest with
      | error e2 =>
        rw [hrec] at h
        cases h
      | ok triple2 =>
        rcases List.mem_cons.mp hq with rfl | hqr
        · exact seqLoop_ok_cells hseq
        · exact ih hrec q hqr

/-! ### Characterisation of `runChecked` and `run` -/

/-- A bad argument count fails with the usage exception, before the loaders
or the matcher are consulted. -/
lemma runChecked_usage {α : Type} (init : List Nat → α) (code : α → List Nat → Int)
    (argv : List String) (rs rp : String → List String) (ra : String → List (List Int))
    (h : argv.length < 3 ∨ argv.length > 4) :
    runChecked init code argv rs rp ra = .error (.usageError (usageMessage argv)) := by
  unfold runChecked
  rw [if_pos h]

/-- With three arguments (no answers source) the checked part always
succeeds, with the full call trace, no diagnostics, and a zero tally. -/
lemma runChecked_three {α : Type} (init : List Nat → α) (code : α → List Nat → Int)
    (argv : List String) (rs rp : String → List String) (ra : String → List (List Int))
    (h3 : argv.length = 3) :
    runChecked init code argv rs rp ra =
      .ok (specEvents (rp (argv.getD 2 "")).length (rs (argv.getD 1 "")).length, [], 0) := by
  unfold runChecked
  have h1 : ¬(argv.length < 3 ∨ argv.length > 4) := by omega
  have h2 : ¬(argv.length = 4) := by omega
  simp only [if_neg h1, if_neg h2, patLoop_none_eq, List.length_map]
  rfl

/-- With four arguments and an answer grid with the wrong number of rows,
the checked part fails with the count-mismatch exception. -/
lemma runChecked_countMismatch {α : Type} (init : List Nat → α) (code : α → List Nat → Int)
    (argv : List String) (rs rp : String → List String) (ra : String → List (List Int))
    (h4 : argv.length = 4)
    (hne : (ra (argv.getD 3 "")).length ≠ (rp (argv.getD 2 "")).length) :
    runChecked init code argv rs rp ra = .error .countMismatchError := by
  unfold runChecked
  have h1 : ¬(argv.length < 3 ∨ argv.length > 4) := by omega
  simp only [if_neg h1, if_pos h4, if_pos hne]

/-- If the checked part of a four-argument run returns normally, its three
outputs are exactly the spec-side call trace, diagnostic lines, and
mismatch count. -/
lemma runChecked_ok_four {α : Type} {init : List Nat → α} {code : α → List Nat → Int}
    {argv : List String} {rs rp : String → List String} {ra : String → List (List Int)}
    {out : List Event × List String × Nat}
    (h4 : argv.length = 4)
    (h : runChecked init code argv rs rp ra = .ok out) :
    out = (specEvents (rp (argv.getD 2 "")).length (rs (argv.getD 1 "")).length,
      mismatchDiagLines init code ((rp (argv.getD 2 "")).map encode)
        ((rs (argv.getD 1 "")).map encode) (ra (argv.getD 3 "")),
      mismatchTotal init code ((rp (argv.getD 2 "")).map encode)
        ((rs (argv.getD 1 "")).map encode) (ra (argv.getD 3 ""))) := by
  unfold runChecked at h
  have h1 : ¬(argv.length < 3 ∨ argv.length > 4) := by omega
  by_cases hcnt : (ra (argv.getD 3 "")).length ≠ (rp (argv.getD 2 "")).length
  · simp only [if_neg h1, if_pos h4, if_pos hcnt] at h
    cases h
  · simp only [if_neg h1, if_pos h4, if_neg hcnt] at h
    have hcells := patLoop_ok_cells h
    rw [patLoop_some_eq _ _ _ _ _ _ hcells] at h
    rw [← Except.ok.inj h]
    simp [specEvents, mismatchDiagLines, mismatchTotal, List.length_map]

/-- Any exception escaping a run with an accepted argument count is either
the count-mismatch exception or an `IndexError`. -/
lemma runChecked_error_valid {α : Type} {init : List Nat → α} {code : α → List Nat → Int}
    {argv : List String} {rs rp : String → List String} {ra : String → List (List Int)}
    {e : RunError}
    (h3 : 3 ≤ argv.length) (h4 : argv.length ≤ 4)
    (h : runChecked init code argv rs rp ra = .error e) :
    e = RunError.countMismatchError ∨ e = RunError.indexError := by
  unfold runChecked at h
  have h1 : ¬(argv.length < 3 ∨ argv.length > 4) := by omega
  by_cases hc4 : argv.length = 4
  · by_cases hcnt : (ra (argv.getD 3 "")).length ≠ (rp (argv.getD 2 "")).length
    · simp only [if_neg h1, if_pos hc4, if_pos hcnt] at h
      exact Or.inl (Except.error.inj h).symm
    · simp only [if_neg h1, if_pos hc4, if_neg hcnt] at h
      exact Or.inr (patLoop_error_eq h)
  · simp only [if_neg h1, if_neg hc4, patLoop_none_eq] at h
    cases h

/-- A run returns normally exactly when its checked part does, and then the
output is the checked part's trace, diagnostics and tally together with the
report lines. -/
lemma run_ok_elim {α : Type} {init : List Nat → α} {code : α → List Nat → Int}
    {name : String} {argv : List String} {rs rp : String → List String}
    {ra : String → List (List Int)} {e : Nat} {out : RunOutput}
    (h : run init code name argv rs rp ra e = .ok out) :
    ∃ evs diags cnt, runChecked init code argv rs rp ra = .ok (evs, diags, cnt) ∧
      out = ⟨evs, diags, report name e, cnt⟩ := by
  unfold run at h
  cases hrc : runChecked init code argv rs rp ra with
  | error e1 => rw [hrc] at h; cases h
  | ok triple =>
    rw [hrc] at h
    obtain ⟨evs, diags, cnt⟩ := triple
    exact ⟨evs, diags, cnt, rfl, (Except.ok.inj h).symm⟩

/-- A run raises an exception exactly when its checked part does, and the
exception is the same. -/
lemma run_error_iff {α : Type} {init : List Nat → α} {code : α → List Nat → Int}
    {name : String} {argv : List String} {rs rp : String → List String}
    {ra : String → List (List Int)} {e : Nat} {err : RunError} :
    run init code name argv rs rp ra e = .error err ↔
      runChecked init code argv rs rp ra = .error err := by
  unfold run
  cases hrc : runChecked init code argv rs rp ra with
  | error e1 => simp
  | ok triple => obtain ⟨evs, diags, cnt⟩ := triple; simp

/-! ### The claims -/

/-- C1: for every valid invocation that supplies an answer grid (four
arguments) and returns normally, the integer returned by `run` equals the
exact cardinality of the set of (pattern, sequence) pairs at which the
matcher's count differs from the answer-matrix cell — `0` when all pairs
agree — with no cap or clamp. -/
theorem claim_C1_return_count {α : Type} (init : List Nat → α) (code : α → List Nat → Int)
    (name : String) (argv : List String) (rs rp : String → List String)
    (ra : String → List (List Int)) (e : Nat) (out : RunOutput)
    (h4 : argv.length = 4)
    (hok : run init code name argv rs rp ra e = .ok out) :
    out.returnCode = mismatchTotal init code ((rp (argv.getD 2 "")).map encode)
      ((rs (argv.getD 1 "")).map encode) (ra (argv.getD 3 "")) := by
  obtain ⟨evs, diags, cnt, hrc, hout⟩ := run_ok_elim hok
  rw [hout]
  exact congrArg (fun t => t.2.2) (runChecked_ok_four h4 hrc)

/-- Witness for C1: a run with one disagreeing cell, whose returned status
is the mismatch count. -/
theorem claim_C1_witness :
    ∃ out, run demoInit demoCode "naive" ["prog", "s", "p", "a"] demoSeqs demoPats
        demoAnsWrong 42 = .ok out ∧
      out.returnCode = mismatchTotal demoInit demoCode ((demoPats "p").map encode)
        ((demoSeqs "s").map encode) (demoAnsWrong "a") :=
  ⟨_, rfl, claim_C1_return_count demoInit demoCode "naive" ["prog", "s", "p", "a"]
    demoSeqs demoPats demoAnsWrong 42 _ rfl rfl⟩

/-- C2: every run that returns normally called `Init` exactly once per
pattern and `MatchCount` exactly once per (pattern, sequence) pair, in
pattern-major, sequence-minor, strictly ascending order: its event trace is
exactly `specEvents`. -/
theorem claim_C2_call_order {α : Type} (init : List Nat → α) (code : α → List Nat → Int)
    (name : String) (argv : List String) (rs rp : String → List String)
    (ra : String → List (List Int)) (e : Nat) (out : RunOutput)
    (hok : run init code name argv rs rp ra e = .ok out) :
    out.events = specEvents (rp (argv.getD 2 "")).length (rs (argv.getD 1 "")).length := by
  obtain ⟨evs, diags, cnt, hrc, hout⟩ := run_ok_elim hok
  rw [hout]
  by_cases h4 : argv.length = 4
  · exact congrArg (fun t => t.1) (runChecked_ok_four h4 hrc)
  · by_cases h3 : argv.length = 3
    · rw [runChecked_three init code argv rs rp ra h3] at hrc
      exact (congrArg (fun t => t.1) (Except.ok.inj hrc)).symm
    · rw [runChecked_usage init code argv rs rp ra (by omega)] at hrc
      cases hrc

/-- Witness for C2: the event trace of a concrete run over two patterns and
two sequences. -/
theorem claim_C2_witness :
    ∃ out, run demoInit demoCode "naive" ["prog", "s", "p", "a"] demoSeqs demoPats
        demoAns 42 = .ok out ∧
      out.events = specEvents ((demoPats "p").length) ((demoSeqs "s").length) :=
  ⟨_, rfl, claim_C2_call_order demoInit demoCode "naive" ["prog", "s", "p", "a"]
    demoSeqs demoPats demoAns 42 _ rfl⟩

/-- C3: when an answers source is supplied (four arguments) and the loaded
answer grid's row count differs from the pattern count, `run` fails with the
count-mismatch exception.  The statement holds for every matcher `init`,
`code` and every elapsed time, so the failure is independent of the matcher
and of the timed region: no `Init` or `MatchCount` call influences it. -/
theorem claim_C3_count_check {α : Type} (init : List Nat → α) (code : α → List Nat → Int)
    (name : String) (argv : List String) (rs rp : String → List String)
    (ra : String → List (List Int)) (e : Nat)
    (h4 : argv.length = 4)
    (hne : (ra (argv.getD 3 "")).length ≠ (rp (argv.getD 2 "")).length) :
    run init code name argv rs rp ra e = .error .countMismatchError := by
  rw [run_error_iff]
  exact runChecked_countMismatch init code argv rs rp ra h4 hne

/-- Witness for C3: one answer row against two patterns fails with the
count-mismatch exception. -/
theorem claim_C3_witness :
    run demoInit demoCode "naive" ["prog", "s", "p", "a"] demoSeqs demoPats
      demoAnsRows 42 = .error .countMismatchError :=
  claim_C3_count_check demoInit demoCode "naive" ["prog", "s", "p", "a"]
    demoSeqs demoPats demoAnsRows 42 rfl (by decide)

/-- C4: `run` fails with the usage exception, carrying the expected
invocation form, exactly when the argument count (program identity included)
is outside 3–4 — that is, when the inputs beyond the program identity number
0, 1, or 4 and more.  Counts of 2 or 3 inputs (lengths 3 or 4) never produce
a usage exception.  The statement holds for every loader and matcher, so the
failure precedes any Loader or Matcher interaction.  A program identity
`argv[0]` is required (the source interpolates it into the message). -/
theorem claim_C4_usage_check {α : Type} (init : List Nat → α) (code : α → List Nat → Int)
    (name : String) (argv : List String) (rs rp : String → List String)
    (ra : String → List (List Int)) (e : Nat) :
    (1 ≤ argv.length → (argv.length < 3 ∨ argv.length > 4) →
      run init code name argv rs rp ra e =
        .error (.usageError ("Usage: " ++ argv.getD 0 "" ++ " sequences patterns <answers>"))) ∧
    (3 ≤ argv.length → argv.length ≤ 4 →
      ∀ msg, run init code name argv rs rp ra e ≠ .error (.usageError msg)) := by
  constructor
  · intro h0 h
    rw [run_error_iff]
    exact runChecked_usage init code argv rs rp ra h
  · intro hge hle msg hcontra
    rcases runChecked_error_valid hge hle (run_error_iff.mp hcontra) with h | h <;> cases h

/-- Witness for C4: a two-argument invocation fails with the usage message,
and a three-argument invocation never raises a usage exception. -/
theorem claim_C4_witness :
    (run demoInit demoCode "naive" ["prog", "s"] demoSeqs demoPats demoAns 42 =
      .error (.usageError ("Usage: " ++ List.getD ["prog", "s"] 0 "" ++
        " sequences patterns <answers>"))) ∧
    run demoInit demoCode "naive" ["prog", "s", "p"] demoSeqs demoPats demoAns 42 ≠
      .error (.usageError "anything") :=
  ⟨(claim_C4_usage_check demoInit demoCode "naive" ["prog", "s"] demoSeqs demoPats
      demoAns 42).1 (by decide) (by decide),
   (claim_C4_usage_check demoInit demoCode "naive" ["prog", "s", "p"] demoSeqs demoPats
      demoAns 42).2 (by decide) (by decide) "anything"⟩

/-- C5: in every four-argument run that returns normally, the diagnostic
channel carries exactly one line per mismatching pair, of the form
`Pattern {p+1} mismatch against sequence {s+1} ({actual} != {expected})`
with 1-indexed pattern and sequence numbers, in pattern-major order over the
entire grid — so a mismatch never stops the loop. -/
theorem claim_C5_diagnostics {α : Type} (init : List Nat → α) (code : α → List Nat → Int)
    (name : String) (argv : List String) (rs rp : String → List String)
    (ra : String → List (List Int)) (e : Nat) (out : RunOutput)
    (h4 : argv.length = 4)
    (hok : run init code name argv rs rp ra e = .ok out) :
    out.stderrLines = mismatchDiagLines init code ((rp (argv.getD 2 "")).map encode)
      ((rs (argv.getD 1 "")).map encode) (ra (argv.getD 3 "")) := by
  obtain ⟨evs, diags, cnt, hrc, hout⟩ := run_ok_elim hok
  rw [hout]
  exact congrArg (fun t => t.2.1) (runChecked_ok_four h4 hrc)

/-- Witness for C5: the diagnostic lines of a concrete run with one
disagreeing cell. -/
theorem claim_C5_witness :
    ∃ out, run demoInit demoCode "naive" ["prog", "s", "p", "a"] demoSeqs demoPats
        demoAnsWrong 42 = .ok out ∧
      out.stderrLines = mismatchDiagLines demoInit demoCode ((demoPats "p").map encode)
        ((demoSeqs "s").map encode) (demoAnsWrong "a") :=
  ⟨_, rfl, claim_C5_diagnostics demoInit demoCode "naive" ["prog", "s", "p", "a"]
    demoSeqs demoPats demoAnsWrong 42 _ rfl rfl⟩

/-- C6: every three-argument invocation (no answers source) returns
normally with status `0`, whatever the matcher returns for any pair. -/
theorem claim_C6_no_answers_zero {α : Type} (init : List Nat → α) (code : α → List Nat → Int)
    (name : String) (argv : List String) (rs rp : String → List String)
    (ra : String → List (List Int)) (e : Nat)
    (h3 : argv.length = 3) :
    ∃ out, run init code name argv rs rp ra e = .ok out ∧ out.returnCode = 0 := by
  refine ⟨⟨specEvents (rp (argv.getD 2 "")).length (rs (argv.getD 1 "")).length, [],
    report name e, 0⟩, ?_, rfl⟩
  unfold run
  rw [runChecked_three init code argv rs rp ra h3]

/-- Witness for C6: a concrete three-argument run returns status `0`. -/
theorem claim_C6_witness :
    ∃ out, run demoInit demoCode "naive" ["prog", "s", "p"] demoSeqs demoPats
        demoAns 42 = .ok out ∧ out.returnCode = 0 :=
  claim_C6_no_answers_zero demoInit demoCode "naive" ["prog", "s", "p"]
    demoSeqs demoPats demoAns 42 rfl

/-- C7: the Encoder is a total, deterministic transform (it is a function):
for every string, the encoded result has exactly the length of the input,
and the code at each position is the code point of the character at that
same position — nothing is dropped, reordered, or merged. -/
theorem claim_C7_encoder (s : String) :
    (encode s).length = s.length ∧
      ∀ (i : Nat) (hi : i < (encode s).length) (hj : i < s.data.length),
        (encode s).get ⟨i, hi⟩ = (s.data.get ⟨i, hj⟩).toNat := by
  constructor
  · show (s.data.map Char.toNat).length = s.data.length
    simp
  · intro i hi hj
    simp [encode]

/-- Witness for C7: the encoding of a concrete two-character string. -/
theorem claim_C7_witness :
    (encode "ab").length = ("ab" : String).length ∧
      (encode "ab").get ⟨0, by decide⟩ = (("ab" : String).data.get ⟨0, by decide⟩).toNat :=
  ⟨(claim_C7_encoder "ab").1, (claim_C7_encoder "ab").2 0 (by decide) (by decide)⟩

/-- C8: every run that passes validation emits the report exactly once, on
the report channel (the `stdout` field, distinct from the `stderr` field
that carries the diagnostics), whatever mismatches occurred: its `stdout`
is exactly three lines — the fixed language tag, the caller-supplied
algorithm name verbatim, and the elapsed seconds whose fractional part has
exactly six digits. -/
theorem claim_C8_report {α : Type} (init : List Nat → α) (code : α → List Nat → Int)
    (name : String) (argv : List String) (rs rp : String → List String)
    (ra : String → List (List Int)) (e : Nat) (out : RunOutput)
    (hok : run init code name argv rs rp ra e = .ok out) :
    out.stdoutLines = ["language: python", "algorithm: " ++ name,
      "runtime: " ++ toString (e / 1000000) ++ "." ++ sixFracDigits (e % 1000000)] ∧
      (sixFracDigits (e % 1000000)).length = 6 := by
  obtain ⟨evs, diags, cnt, hrc, hout⟩ := run_ok_elim hok
  rw [hout]
  exact ⟨rfl, rfl⟩

/-- Witness for C8: the report of a concrete run with elapsed time
1.234567 seconds. -/
theorem claim_C8_witness :
    ∃ out, run demoInit demoCode "naive" ["prog", "s", "p"] demoSeqs demoPats
        demoAns 1234567 = .ok out ∧
      (out.stdoutLines = ["language: python", "algorithm: " ++ "naive",
        "runtime: " ++ toString (1234567 / 1000000) ++ "." ++ sixFracDigits (1234567 % 1000000)] ∧
        (sixFracDigits (1234567 % 1000000)).length = 6) :=
  ⟨_, rfl, claim_C8_report demoInit demoCode "naive" ["prog", "s", "p"]
    demoSeqs demoPats demoAns 1234567 _ rfl⟩

/-- C9: two runs over the same corpus (same `argv` and loaders) with the
same deterministic matcher, differing only in measured elapsed time, return
the same call trace (hence the same match count at every pair), the same
diagnostics, the same status, and report lines differing at most in the
runtime line. -/
theorem claim_C9_idempotent {α : Type} (init : List Nat → α) (code : α → List Nat → Int)
    (name : String) (argv : List String) (rs rp : String → List String)
    (ra : String → List (List Int)) (e₁ e₂ : Nat) (o₁ o₂ : RunOutput)
    (h₁ : run init code name argv rs rp ra e₁ = .ok o₁)
    (h₂ : run init code name argv rs rp ra e₂ = .ok o₂) :
    o₁.events = o₂.events ∧ o₁.stderrLines = o₂.stderrLines ∧
      o₁.returnCode = o₂.returnCode ∧
      o₁.stdoutLines.take 2 = o₂.stdoutLines.take 2 := by
  obtain ⟨evs1, diags1, cnt1, hrc1, hout1⟩ := run_ok_elim h₁
  obtain ⟨evs2, diags2, cnt2, hrc2, hout2⟩ := run_ok_elim h₂
  rw [hrc1] at hrc2
  have h := Except.ok.inj hrc2
  rw [Prod.ext_iff, Prod.ext_iff] at h
  rw [hout1, hout2]
  exact ⟨h.1, h.2.1, h.2.2, rfl⟩

/-- Witness for C9: two concrete runs with different elapsed times agree on
trace, diagnostics and status. -/
theorem claim_C9_witness :
    ∃ o₁ o₂, run demoInit demoCode "naive" ["prog", "s", "p", "a"] demoSeqs demoPats
        demoAnsWrong 5 = .ok o₁ ∧
      run demoInit demoCode "naive" ["prog", "s", "p", "a"] demoSeqs demoPats
        demoAnsWrong 7 = .ok o₂ ∧
      (o₁.events = o₂.events ∧ o₁.stderrLines = o₂.stderrLines ∧
        o₁.returnCode = o₂.returnCode ∧
        o₁.stdoutLines.take 2 = o₂.stdoutLines.take 2) :=
  ⟨_, _, rfl, rfl, claim_C9_idempotent demoInit demoCode "naive" ["prog", "s", "p", "a"]
    demoSeqs demoPats demoAnsWrong 5 7 _ _ rfl rfl⟩

/-- C10: the answer columns are never validated — the only pre-loop check
is on the row count.  A four-argument invocation whose answer grid passes
the row-count check but has some row shorter than the sequence count does
not fail fast: it reaches the timed loop and aborts there with the uncaught
index error from `answers_data[pattern][sequence]`. -/
theorem claim_C10_short_row {α : Type} (init : List Nat → α) (code : α → List Nat → Int)
    (name : String) (argv : List String) (rs rp : String → List String)
    (ra : String → List (List Int)) (e : Nat)
    (h4 : argv.length = 4)
    (hrows : (ra (argv.getD 3 "")).length = (rp (argv.getD 2 "")).length)
    (hshort : ∃ row ∈ ra (argv.getD 3 ""), row.length < (rs (argv.getD 1 "")).length) :
    run init code name argv rs rp ra e = .error .indexError := by
  rw [run_error_iff]
  unfold runChecked
  have h1 : ¬(argv.length < 3 ∨ argv.length > 4) := by omega
  have hcnt : ¬((ra (argv.getD 3 "")).length ≠ (rp (argv.getD 2 "")).length) :=
    not_not_intro hrows
  simp only [if_neg h1, if_pos h4, if_neg hcnt]
  obtain ⟨row, hmem, hlen⟩ := hshort
  obtain ⟨p, hp, hget⟩ := List.getElem_of_mem hmem
  cases hres : patLoop init code ((rp (argv.getD 2 "")).map encode)
      ((rs (argv.getD 1 "")).map encode) (some (ra (argv.getD 3 "")))
      (List.range ((rp (argv.getD 2 "")).map encode).length) with
  | error err => rw [patLoop_error_eq hres]
  | ok out =>
    exfalso
    have hcells := patLoop_ok_cells hres
    have hpmem : p ∈ List.range ((rp (argv.getD 2 "")).map encode).length := by
      rw [List.mem_range, List.length_map]
      omega
    have hsmem : row.length ∈ List.range ((rs (argv.getD 1 "")).map encode).length := by
      rw [List.mem_range, List.length_map]
      exact hlen
    have hsome := hcells p hpmem row.length hsmem
    have hgp : (ra (argv.getD 3 ""))[p]? = some row :=
      List.getElem?_eq_some_iff.mpr ⟨hp, hget⟩
    rw [cellLookup, hgp] at hsome
    simp [List.getElem?_eq_none (Nat.le_refl row.length)] at hsome

/-- Witness for C10: a concrete answer grid with the right number of rows
but a short first row aborts with the index error. -/
theorem claim_C10_witness :
    run demoInit demoCode "naive" ["prog", "s", "p", "a"] demoSeqs demoPats
      demoAnsShort 42 = .error .indexError :=
  claim_C10_short_row demoInit demoCode "naive" ["prog", "s", "p", "a"]
    demoSeqs demoPats demoAnsShort 42 rfl (by decide) (by decide)

end RunPy
